import Mathlib

/-!
Shallow embedding of the secure-passkey-auth front-end: the TOTP engine
(RFC 6238 SHA1-based, as used via the `otpauth` library), base32/base64
codecs, the credential store rows, and the four authentication flow
handlers (Verify2FA, Setup2FA, Choose2FA, Settings/addPasskey).
-/

namespace SecureAuth

/-- Bytes are naturals below 256, 32-bit words are naturals below 2^32. -/
def mask32 : Nat := 4294967296

/-- Rotate a 32-bit word left by `n` bits. -/
def rotl (n x : Nat) : Nat := ((x <<< n) + (x >>> (32 - n))) % mask32

/-- Big-endian 32-bit word from four bytes. -/
def wordOfBytes (a b c d : Nat) : Nat := ((a * 256 + b) * 256 + c) * 256 + d

/-- Group a byte list into big-endian 32-bit words (length a multiple of 4). -/
def toWords : List Nat → List Nat
  | a :: b :: c :: d :: rest => wordOfBytes a b c d :: toWords rest
  | _ => []

/-- SHA-1 round function. -/
def sha1F (t b c d : Nat) : Nat :=
  if t < 20 then (b &&& c) ||| ((b ^^^ 4294967295) &&& d)
  else if t < 40 then b ^^^ c ^^^ d
  else if t < 60 then (b &&& c) ||| (b &&& d) ||| (c &&& d)
  else b ^^^ c ^^^ d

/-- SHA-1 round constants. -/
def sha1K (t : Nat) : Nat :=
  if t < 20 then 0x5A827999
  else if t < 40 then 0x6ED9EBA1
  else if t < 60 then 0x8F1BBCDC
  else 0xCA62C1D6

/-- Extend the 16 block words to the 80-word message schedule (`fuel` more words). -/
def sha1Extend (ws : List Nat) : Nat → List Nat
  | 0 => ws
  | n + 1 =>
    let i := ws.length
    let w := rotl 1 ((ws.getD (i - 3) 0) ^^^ (ws.getD (i - 8) 0) ^^^
                     (ws.getD (i - 14) 0) ^^^ (ws.getD (i - 16) 0))
    sha1Extend (ws ++ [w]) n

/-- One SHA-1 round: state is (a, b, c, d, e), input is (round index, schedule word). -/
def sha1Round (st : Nat × Nat × Nat × Nat × Nat) (tw : Nat × Nat) :
    Nat × Nat × Nat × Nat × Nat :=
  match st, tw with
  | (a, b, c, d, e), (t, w) =>
    ((rotl 5 a + sha1F t b c d + e + sha1K t + w) % mask32, a, rotl 30 b, c, d)

/-- Compress one 64-byte block into the running hash state. -/
def sha1Compress (h : Nat × Nat × Nat × Nat × Nat) (block : List Nat) :
    Nat × Nat × Nat × Nat × Nat :=
  match h with
  | (h0, h1, h2, h3, h4) =>
    let ws := sha1Extend (toWords block) 64
    match ((List.range 80).zip ws).foldl sha1Round (h0, h1, h2, h3, h4) with
    | (a, b, c, d, e) =>
      ((h0 + a) % mask32, (h1 + b) % mask32, (h2 + c) % mask32,
       (h3 + d) % mask32, (h4 + e) % mask32)

/-- Merkle–Damgård padding: 0x80, zeros to 56 mod 64, then 64-bit big-endian bit length. -/
def sha1Pad (msg : List Nat) : List Nat :=
  let bitLen := msg.length * 8
  let padZeros := (55 - msg.length % 64 + 64) % 64
  msg ++ [0x80] ++ List.replicate padZeros 0 ++
    [bitLen >>> 56 % 256, bitLen >>> 48 % 256, bitLen >>> 40 % 256, bitLen >>> 32 % 256,
     bitLen >>> 24 % 256, bitLen >>> 16 % 256, bitLen >>> 8 % 256, bitLen % 256]

/-- Split a list into 64-byte chunks; `fuel` bounds the recursion (length suffices). -/
def chunk64 : Nat → List Nat → List (List Nat)
  | 0, _ => []
  | _, [] => []
  | n + 1, l => l.take 64 :: chunk64 n (l.drop 64)

/-- Big-endian bytes of a 32-bit word. -/
def bytesOfWord (w : Nat) : List Nat := [w >>> 24 % 256, w >>> 16 % 256, w >>> 8 % 256, w % 256]

/-- SHA-1 of a byte list, as a 20-byte list. -/
def sha1 (msg : List Nat) : List Nat :=
  let padded := sha1Pad msg
  match (chunk64 padded.length padded).foldl sha1Compress
      (0x67452301, 0xEFCDAB89, 0x98BADCFE, 0x10325476, 0xC3D2E1F0) with
  | (h0, h1, h2, h3, h4) =>
    bytesOfWord h0 ++ bytesOfWord h1 ++ bytesOfWord h2 ++ bytesOfWord h3 ++ bytesOfWord h4

/-- HMAC-SHA1 (RFC 2104), block size 64 bytes. -/
def hmacSha1 (key msg : List Nat) : List Nat :=
  let k0 := if key.length > 64 then sha1 key else key
  let k := k0 ++ List.replicate (64 - k0.length) 0
  sha1 ((k.map (· ^^^ 0x5C)) ++ sha1 ((k.map (· ^^^ 0x36)) ++ msg))

/-- Big-endian 8-byte encoding of the HOTP counter (RFC 4226 §5.2). -/
def counterBytes (c : Nat) : List Nat :=
  [c >>> 56 % 256, c >>> 48 % 256, c >>> 40 % 256, c >>> 32 % 256,
   c >>> 24 % 256, c >>> 16 % 256, c >>> 8 % 256, c % 256]

/-- Dynamic truncation of the HMAC digest to a 31-bit integer (RFC 4226 §5.3). -/
def dynamicTruncate (digest : List Nat) : Nat :=
  let off := digest.getD 19 0 % 16
  ((digest.getD off 0 % 128) <<< 24) + (digest.getD (off + 1) 0 <<< 16) +
    (digest.getD (off + 2) 0 <<< 8) + digest.getD (off + 3) 0

/-- Decimal digit as a character. -/
def digitChar (d : Nat) : Char := Char.ofNat (48 + d)

namespace OTPAuth

/-- Modelled from the spec: the TOTP Engine's code generation, `otpauth`'s
HOTP generate with the spec's RFC 6238 defaults (SHA1, 6 digits); the
library source is not in the repository. Returns the 6-digit code as a
number below 10^6. -/
def hotpNat (key : List Nat) (counter : Nat) : Nat :=
  SecureAuth.dynamicTruncate (SecureAuth.hmacSha1 key (SecureAuth.counterBytes counter)) % 1000000

/-- Modelled from the spec: the generated token string, the 6-digit code
zero-padded to exactly 6 characters. -/
def hotpToken (key : List Nat) (counter : Nat) : String :=
  let n := hotpNat key counter
  String.mk [SecureAuth.digitChar (n / 100000 % 10), SecureAuth.digitChar (n / 10000 % 10),
             SecureAuth.digitChar (n / 1000 % 10), SecureAuth.digitChar (n / 100 % 10),
             SecureAuth.digitChar (n / 10 % 10), SecureAuth.digitChar (n % 10)]

/-- Modelled from the spec: `validate(secret, submittedCode, window=1)`;
the library source is not in the repository. Rejects tokens that are not
exactly `digits` characters, then checks the current period and the ±1
adjacent periods, returning the first matching offset (the offset below
the counter is only checked when a previous period exists, counters
being nonnegative) or the no-match sentinel `none`. -/
def validate (key : List Nat) (token : String) (counter : Nat) : Option Int :=
  if token.length ≠ 6 then none
  else if 1 ≤ counter ∧ token = hotpToken key (counter - 1) then some (-1)
  else if token = hotpToken key counter then some 0
  else if token = hotpToken key (counter + 1) then some 1
  else none

/-- Modelled from the spec: the TOTP counter for a timestamp in
milliseconds, with the RFC 6238 default 30-second period
(`Math.floor(timestamp / 1000 / period)`). -/
def totpCounter (timestampMs : Nat) : Nat := timestampMs / 1000 / 30

/-- Five-bit value of one RFC 4648 base32 alphabet character. -/
def b32Val (ch : Char) : Option Nat :=
  let c := ch.toNat
  if 65 ≤ c ∧ c ≤ 90 then some (c - 65)
  else if 97 ≤ c ∧ c ≤ 122 then some (c - 97)
  else if 50 ≤ c ∧ c ≤ 55 then some (c - 50 + 26)
  else none

/-- Modelled from the spec: base32 decoding as in `Secret.fromBase32`
(RFC 4648 alphabet, case-insensitive), accumulating 5-bit groups and
emitting each completed byte; an alphabet-foreign character fails. -/
def base32DecodeAux : List Char → Nat → Nat → Option (List Nat)
  | [], _, _ => some []
  | ch :: rest, acc, bits =>
    match b32Val ch with
    | none => none
    | some v =>
      let acc2 := acc * 32 + v
      let bits2 := bits + 5
      if bits2 ≥ 8 then
        match base32DecodeAux rest (acc2 % 2 ^ (bits2 - 8)) (bits2 - 8) with
        | none => none
        | some bs => some ((acc2 >>> (bits2 - 8)) :: bs)
      else base32DecodeAux rest acc2 bits2

/-- Base32 decoding of a secret string, trailing padding stripped. -/
def base32Decode (s : String) : Option (List Nat) :=
  base32DecodeAux (s.data.filter (· ≠ '=')) 0 0

end OTPAuth

/-- The base64 alphabet (RFC 4648), as used by the browser's `btoa`/`atob`. -/
def b64Chars : List Char :=
  "ABCDEFGHIJKLMNOPQRSTUVWXYZabcdefghijklmnopqrstuvwxyz0123456789+/".data

/-- Six-bit value of one base64 character. -/
def b64Val (ch : Char) : Option Nat := b64Chars.indexOf? ch

/-- Base64 encoding of a byte list, as `btoa(String.fromCharCode(...bytes))`. -/
def base64Encode : List Nat → String
  | a :: b :: c :: rest =>
    String.mk [b64Chars.getD (a >>> 2) 'A', b64Chars.getD ((a % 4) <<< 4 + b >>> 4) 'A',
               b64Chars.getD ((b % 16) <<< 2 + c >>> 6) 'A', b64Chars.getD (c % 64) 'A'] ++
      base64Encode rest
  | [a, b] =>
    String.mk [b64Chars.getD (a >>> 2) 'A', b64Chars.getD ((a % 4) <<< 4 + b >>> 4) 'A',
               b64Chars.getD ((b % 16) <<< 2) 'A', '=']
  | [a] =>
    String.mk [b64Chars.getD (a >>> 2) 'A', b64Chars.getD ((a % 4) <<< 4) 'A', '=', '=']
  | [] => ""

/-- Base64 decoding of a character list, as the browser's `atob` followed by
`charCodeAt` on each output character; malformed input fails. -/
def base64DecodeAux : List Char → Option (List Nat)
  | [] => some []
  | [a, b, '=', '='] =>
    match b64Val a, b64Val b with
    | some va, some vb => some [va <<< 2 + vb >>> 4]
    | _, _ => none
  | [a, b, c, '='] =>
    match b64Val a, b64Val b, b64Val c with
    | some va, some vb, some vc => some [va <<< 2 + vb >>> 4, (vb % 16) <<< 4 + vc >>> 2]
    | _, _, _ => none
  | a :: b :: c :: d :: rest =>
    match b64Val a, b64Val b, b64Val c, b64Val d, base64DecodeAux rest with
    | some va, some vb, some vc, some vd, some bs =>
      some ([va <<< 2 + vb >>> 4, (vb % 16) <<< 4 + vc >>> 2, (vc % 4) <<< 6 + vd] ++ bs)
    | _, _, _, _, _ => none
  | _ => none

/-- Base64 decoding of a string. -/
def base64Decode (s : String) : Option (List Nat) := base64DecodeAux s.data

/-- One `user_2fa` row (migration: `user_id` unique, `secret` base32 text,
`enabled` boolean). -/
structure TwoFactorRow where
  user_id : String
  secret : String
  enabled : Bool
deriving Repr, DecidableEq

/-- One `user_passkeys` row (migration: `credential_id` unique base64 text,
`public_key` base64 text, `counter` integer default 0, nullable
`last_used_at`). -/
structure PasskeyRow where
  id : String
  user_id : String
  credential_id : String
  public_key : String
  counter : Nat
  device_name : String
  created_at : Nat
  last_used_at : Option Nat
deriving Repr, DecidableEq

/-- The two backend tables this flow reads and writes. -/
structure Store where
  user_2fa : List TwoFactorRow
  user_passkeys : List PasskeyRow
deriving Repr, DecidableEq

/-- The query `from('user_2fa').select(...).eq('user_id', uid).single()`:
the account's unique 2FA row, `none` when absent (the migration's unique
constraint on `user_id` keeps at most one row per account). -/
def getTwoFA (s : Store) (uid : String) : Option TwoFactorRow :=
  s.user_2fa.find? (fun r => r.user_id == uid)

/-- The query `from('user_passkeys')...eq('user_id', uid)`: the account's
passkey rows. -/
def passkeysOf (s : Store) (uid : String) : List PasskeyRow :=
  s.user_passkeys.filter (fun r => r.user_id == uid)

/-- The insert into `user_2fa`; fails (unique-constraint violation) when a
row for the same `user_id` already exists. -/
def insertTwoFA (s : Store) (row : TwoFactorRow) : Option Store :=
  if s.user_2fa.any (fun r => r.user_id == row.user_id) then none
  else some { s with user_2fa := s.user_2fa ++ [row] }

/-- The insert into `user_passkeys`; fails (unique-constraint violation)
when a row with the same `credential_id` already exists. -/
def insertPasskey (s : Store) (row : PasskeyRow) : Option Store :=
  if s.user_passkeys.any (fun r => r.credential_id == row.credential_id) then none
  else some { s with user_passkeys := s.user_passkeys ++ [row] }

/-- The Settings toggle's update `from('user_2fa').update({enabled}).eq('user_id', uid)`. -/
def setTwoFAEnabled (s : Store) (uid : String) (b : Bool) : Store :=
  { s with user_2fa := s.user_2fa.map (fun r => if r.user_id == uid then { r with enabled := b } else r) }

namespace Verify2FA

/-- Outcome of Verify2FA's `handleVerify`: navigate to the dashboard
(Authenticated), stay with the InvalidCode toast, or stay with a generic
error toast (missing user id, store error, malformed secret). -/
inductive Result where
  | authenticated
  | invalidCode
  | flowError
deriving Repr, DecidableEq

/-- Embeds `handleVerify` of `src/pages/auth/Verify2FA.tsx`: loads the
account's `user_2fa` row selecting only `secret`, rebuilds the TOTP with
`Secret.fromBase32`, calls `validate({token, window: 1})` at the current
time, and navigates to `/dashboard` exactly when the result is not the
no-match sentinel. -/
def handleVerify (store : Store) (userId : Option String) (token : String)
    (nowMs : Nat) : Result :=
  match userId with
  | none => .flowError
  | some uid =>
    match getTwoFA store uid with
    | none => .flowError
    | some row =>
      match OTPAuth.base32Decode row.secret with
      | none => .flowError
      | some key =>
        match OTPAuth.validate key token (OTPAuth.totpCounter nowMs) with
        | none => .invalidCode
        | some _ => .authenticated

end Verify2FA

namespace Setup2FA

/-- Outcome of Setup2FA's `handleVerify`: setup complete and navigate to
the dashboard, stay with the InvalidCode toast, or stay with a generic
error toast (malformed secret, insert failure). -/
inductive Result where
  | complete
  | invalidCode
  | setupError
deriving Repr, DecidableEq

/-- Embeds `handleVerify` of `src/pages/auth/Setup2FA.tsx`: validates the
confirmation token against the freshly generated base32 secret with
`window: 1`; on the no-match sentinel stays (no store write); on a match
inserts `{user_id, secret, enabled: true}` into `user_2fa` and navigates
to `/dashboard`. Returns the outcome with the resulting store. -/
def handleVerify (store : Store) (uid : String) (secret : String)
    (token : String) (nowMs : Nat) : Result × Store :=
  match OTPAuth.base32Decode secret with
  | none => (.setupError, store)
  | some key =>
    match OTPAuth.validate key token (OTPAuth.totpCounter nowMs) with
    | none => (.invalidCode, store)
    | some _ =>
      match insertTwoFA store { user_id := uid, secret := secret, enabled := true } with
      | none => (.setupError, store)
      | some s2 => (.complete, s2)

end Setup2FA

namespace Choose2FA

/-- The verification methods the Choose2FA page can offer. -/
inductive Method where
  | code
  | passkey
deriving Repr, DecidableEq

/-- Embeds `checkPasskeys` of the Choose2FA page: queries `user_passkeys`
selecting `id` with `limit(1)` and reports whether at least one row came
back. -/
def checkPasskeys (store : Store) (uid : String) : Bool :=
  (((passkeysOf store uid).map (fun r => r.id)).take 1).length > 0

/-- The buttons the Choose2FA page renders: the authenticator-code option
always, the passkey option only when `hasPasskeys` is set. -/
def offeredMethods (hasPasskeys : Bool) : List Method :=
  if hasPasskeys then [.code, .passkey] else [.code]

/-- The contents of a platform assertion object, which `handleUsePasskey`
never inspects beyond null-ness. -/
structure Assertion where
  rawId : List Nat
  signature : List Nat
  authenticatorData : List Nat
  clientDataJSON : List Nat
deriving Repr, DecidableEq

/-- Outcome of Choose2FA's `handleUsePasskey`. -/
inductive PasskeyResult where
  | blockedIframe
  | unsupported
  | noPasskeys
  | ceremonyFailed
  | authenticated
deriving Repr, DecidableEq

/-- Embeds `handleUsePasskey` of the Choose2FA page: refuses inside an
iframe before touching anything, requires `window.PublicKeyCredential`,
loads the account's passkeys (NoPasskeys toast when empty), base64-decodes
each stored `credential_id` into the ceremony allow-list (a decode throw
is caught as a failure), invokes `navigator.credentials.get` with a fresh
challenge, and navigates to `/dashboard` exactly when the ceremony yields
a non-null assertion, never writing the store. The platform ceremony is a
parameter mapping (challenge, allow-list) to its optional assertion. -/
def handleUsePasskey (inIframe : Bool) (webAuthnSupported : Bool)
    (store : Store) (uid : String)
    (ceremony : List Nat → List (List Nat) → Option Assertion)
    (challenge : List Nat) : PasskeyResult × Store :=
  if inIframe then (.blockedIframe, store)
  else if !webAuthnSupported then (.unsupported, store)
  else
    let rows := passkeysOf store uid
    if rows.isEmpty then (.noPasskeys, store)
    else
      match rows.mapM (fun r => base64Decode r.credential_id) with
      | none => (.ceremonyFailed, store)
      | some allowList =>
        match ceremony challenge allowList with
        | none => (.ceremonyFailed, store)
        | some _ => (.authenticated, store)

end Choose2FA

namespace Settings

/-- The `PublicKeyCredentialCreationOptions` fields `addPasskey` builds. -/
structure CreationOptions where
  challenge : List Nat
  rpName : String
  userName : String
  pubKeyCredParams : List Int
  authenticatorAttachment : String
  userVerification : String
  requireResidentKey : Bool
  timeoutMs : Nat
deriving Repr, DecidableEq

/-- The creation options exactly as `addPasskey` assembles them: the given
32 random challenge bytes, ES256 (-7) and RS256 (-257) only, platform
attachment, required user verification. -/
def mkCreationOptions (email : String) (challenge : List Nat) : CreationOptions :=
  { challenge := challenge
    rpName := "Secure Auth App"
    userName := email
    pubKeyCredParams := [-7, -257]
    authenticatorAttachment := "platform"
    userVerification := "required"
    requireResidentKey := false
    timeoutMs := 60000 }

/-- A created platform credential: the raw id bytes and the attestation
response's public key, which `getPublicKey()` may fail to supply. -/
structure CreatedCredential where
  rawId : List Nat
  publicKey : Option (List Nat)
deriving Repr, DecidableEq

/-- How the creation ceremony can come back: a credential, a null result,
or a `NotAllowedError` / `NotSupportedError` throw. -/
inductive CeremonyOutcome where
  | ok (cred : CreatedCredential)
  | nullResult
  | notAllowed
  | notSupported
deriving Repr, DecidableEq

/-- Outcome of Settings' `addPasskey`. -/
inductive AddResult where
  | missingName
  | cancelled
  | unsupported
  | addFailed
  | added
deriving Repr, DecidableEq

/-- JavaScript's String.prototype.trim: whitespace stripped from both
ends. -/
def strTrim (s : String) : String :=
  String.mk ((s.data.dropWhile Char.isWhitespace).reverse.dropWhile Char.isWhitespace).reverse

/-- Embeds `addPasskey` of the Settings page: requires a non-blank device
name, draws a fresh 32-byte challenge from the random stream, runs the
creation ceremony on the assembled options, base64-encodes the raw
credential id and public key (`btoa(String.fromCharCode(...))`), and
inserts the row with the submitted device label; the new row id and the
insertion timestamp come from the environment. -/
def addPasskey (uid : String) (email : String) (passkeyName : String)
    (rand : Nat → Nat) (ceremony : CreationOptions → CeremonyOutcome)
    (store : Store) (newRowId : String) (nowMs : Nat) : AddResult × Store :=
  if strTrim passkeyName = "" then (.missingName, store)
  else
    let challenge := (List.range 32).map (fun i => rand i % 256)
    match ceremony (mkCreationOptions email challenge) with
    | .notAllowed => (.cancelled, store)
    | .notSupported => (.unsupported, store)
    | .nullResult => (.addFailed, store)
    | .ok cred =>
      match cred.publicKey with
      | none => (.addFailed, store)
      | some pk =>
        match insertPasskey store
            { id := newRowId
              user_id := uid
              credential_id := base64Encode cred.rawId
              public_key := base64Encode pk
              counter := 0
              device_name := passkeyName
              created_at := nowMs
              last_used_at := none } with
        | none => (.addFailed, store)
        | some s2 => (.added, s2)

end Settings

end SecureAuth

set_option maxRecDepth 10000

open SecureAuth

/-- Known-answer test: SHA-1 of the empty message. -/
theorem sha1_empty_kat :
    SecureAuth.sha1 [] =
      [0xda, 0x39, 0xa3, 0xee, 0x5e, 0x6b, 0x4b, 0x0d, 0x32, 0x55,
       0xbf, 0xef, 0x95, 0x60, 0x18, 0x90, 0xaf, 0xd8, 0x07, 0x09] := by decide

/-- Known-answer test: the RFC 4226 appendix D vector, key
"12345678901234567890", counter 0, code 755224. -/
theorem hotp_rfc4226_kat :
    OTPAuth.hotpToken [49, 50, 51, 52, 53, 54, 55, 56, 57, 48,
                       49, 50, 51, 52, 53, 54, 55, 56, 57, 48] 0 = "755224" := by decide

/-- The generated token is always exactly six characters long. -/
theorem hotpToken_length (key : List Nat) (c : Nat) :
    (OTPAuth.hotpToken key c).length = 6 := rfl

/-- Claim C10: when the page runs inside an iframe, `handleUsePasskey`
refuses up front: for every account, store state, WebAuthn support level,
challenge and platform ceremony, it returns the iframe error and the
untouched store, so no store read and no ceremony can influence the
result. -/
theorem claim_C10_iframe_refusal (webAuthnSupported : Bool) (store : Store) (uid : String)
    (ceremony : List Nat → List (List Nat) → Option Choose2FA.Assertion)
    (challenge : List Nat) :
    Choose2FA.handleUsePasskey true webAuthnSupported store uid ceremony challenge =
      (Choose2FA.PasskeyResult.blockedIframe, store) := rfl

/-- Claim C8: `handleUsePasskey` never writes the store: on every path,
successful assertion included, the resulting store is exactly the input
store, so every stored PasskeyCredential row — its signature counter and
last-used timestamp included — is unchanged. -/
theorem claim_C8_no_store_write (inIframe webAuthnSupported : Bool) (store : Store)
    (uid : String) (ceremony : List Nat → List (List Nat) → Option Choose2FA.Assertion)
    (challenge : List Nat) :
    (Choose2FA.handleUsePasskey inIframe webAuthnSupported store uid ceremony challenge).2 =
      store := by
  unfold Choose2FA.handleUsePasskey
  cases inIframe with
  | true => rfl
  | false =>
    cases webAuthnSupported with
    | false => rfl
    | true =>
      simp only [Bool.not_true, if_false, Bool.false_eq_true]
      split
      · rfl
      · split
        · rfl
        · split <;> rfl

/-- Filtering the passkey table for an account is nonempty exactly when
the account owns some stored row. -/
theorem passkeysOf_ne_nil_iff (store : Store) (uid : String) :
    passkeysOf store uid ≠ [] ↔ ∃ r ∈ store.user_passkeys, r.user_id = uid := by
  simp [passkeysOf, List.eq_nil_iff_forall_not_mem, List.mem_filter]

/-- Claim C5: the Choose2FA step offers the passkey method if and only if
the account has at least one stored PasskeyCredential, and with zero
stored passkeys only the code option is rendered. -/
theorem claim_C5_passkey_option_iff (store : Store) (uid : String) :
    (Choose2FA.Method.passkey ∈
        Choose2FA.offeredMethods (Choose2FA.checkPasskeys store uid) ↔
      ∃ r ∈ store.user_passkeys, r.user_id = uid) ∧
    (passkeysOf store uid = [] →
      Choose2FA.offeredMethods (Choose2FA.checkPasskeys store uid) =
        [Choose2FA.Method.code]) := by
  constructor
  · rw [← passkeysOf_ne_nil_iff]
    unfold Choose2FA.checkPasskeys Choose2FA.offeredMethods
    cases hpk : passkeysOf store uid with
    | nil => simp
    | cons a l => simp
  · intro h
    unfold Choose2FA.checkPasskeys Choose2FA.offeredMethods
    rw [h]
    rfl

/-- Claim C1: passkey authentication outside an iframe with WebAuthn
support fails with the NoPasskeys error when the account has no stored
credentials; otherwise the ceremony receives the allow-list obtained by
base64-decoding every stored credential id, and the flow authenticates
(navigates to the dashboard) exactly when the platform hands back some
assertion — no signature check is interposed, the assertion's contents
being irrelevant. -/
theorem claim_C1_passkey_auth (store : Store) (uid : String)
    (ceremony : List Nat → List (List Nat) → Option Choose2FA.Assertion)
    (challenge : List Nat) :
    (passkeysOf store uid = [] →
      Choose2FA.handleUsePasskey false true store uid ceremony challenge =
        (Choose2FA.PasskeyResult.noPasskeys, store)) ∧
    (∀ allowList, (passkeysOf store uid).mapM (fun r => base64Decode r.credential_id) =
        some allowList →
      (Choose2FA.handleUsePasskey false true store uid ceremony challenge =
          (Choose2FA.PasskeyResult.authenticated, store) ↔
        passkeysOf store uid ≠ [] ∧ ceremony challenge allowList ≠ none)) := by
  constructor
  · intro h
    unfold Choose2FA.handleUsePasskey
    simp [h]
  · intro allowList hdec
    unfold Choose2FA.handleUsePasskey
    cases hpk : passkeysOf store uid with
    | nil => simp [hpk]
    | cons a l =>
      rw [hpk] at hdec
      simp only [List.isEmpty_cons, hdec]
      cases hc : ceremony challenge (allowList) with
      | none => simp [hc]
      | some a2 => simp [hc]

/-- Witness for C1 at a one-passkey store whose ceremony answers with an
assertion: the flow authenticates. -/
theorem claim_C1_passkey_auth_witness :
    Choose2FA.handleUsePasskey false true
        ⟨[], [⟨"p1", "u1", "AQIDBA==", "cGs=", 0, "phone", 0, none⟩]⟩ "u1"
        (fun _ _ => some ⟨[], [], [], []⟩) [0] =
      (Choose2FA.PasskeyResult.authenticated,
        ⟨[], [⟨"p1", "u1", "AQIDBA==", "cGs=", 0, "phone", 0, none⟩]⟩) :=
  ((claim_C1_passkey_auth ⟨[], [⟨"p1", "u1", "AQIDBA==", "cGs=", 0, "phone", 0, none⟩]⟩
      "u1" (fun _ _ => some ⟨[], [], [], []⟩) [0]).2 [[1, 2, 3, 4]] (by decide)).mpr
    ⟨by decide, by simp⟩

/-- Toggling the enabled flag commutes with looking a row up by account
id, since the toggle preserves `user_id`. -/
theorem find?_map_toggle (l : List TwoFactorRow) (uid u : String) (b : Bool) :
    (l.map (fun r => if r.user_id == uid then { r with enabled := b } else r)).find?
        (fun r => r.user_id == u) =
      (l.find? (fun r => r.user_id == u)).map
        (fun r => if r.user_id == uid then { r with enabled := b } else r) := by
  induction l with
  | nil => rfl
  | cons a l ih =>
    have hpa : ((if a.user_id == uid then { a with enabled := b } else a).user_id == u) =
        (a.user_id == u) := by split <;> rfl
    cases hau : (a.user_id == u) with
    | true =>
      simp only [List.map_cons, List.find?_cons, hpa, hau]
      rfl
    | false =>
      simp only [List.map_cons, List.find?_cons, hpa, hau]
      exact ih

/-- Claim C9: the Verify2FA step reads only the `secret` column: flipping
the stored `enabled` flag of any account changes no verification outcome,
so a disabled 2FA record still has codes validated against its secret. -/
theorem claim_C9_enabled_flag_ignored (store : Store) (uid : String) (b : Bool)
    (userId : Option String) (token : String) (nowMs : Nat) :
    Verify2FA.handleVerify (setTwoFAEnabled store uid b) userId token nowMs =
      Verify2FA.handleVerify store userId token nowMs := by
  cases userId with
  | none => rfl
  | some u =>
    simp only [Verify2FA.handleVerify]
    have hfind : getTwoFA (setTwoFAEnabled store uid b) u =
        (getTwoFA store u).map
          (fun r => if r.user_id == uid then { r with enabled := b } else r) := by
      unfold getTwoFA setTwoFAEnabled
      exact find?_map_toggle store.user_2fa uid u b
    rw [hfind]
    cases hr : getTwoFA store u with
    | none => rfl
    | some r =>
      have hsec : (if r.user_id == uid then { r with enabled := b } else r).secret =
          r.secret := by split <;> rfl
      simp only [Option.map_some', hsec]

/-- Claim C2: in the AwaitingTOTPCode step the handler loads the stored
secret, validates the submitted code with window 1, and navigates to the
dashboard exactly on a match; on the no-match sentinel it stays with the
InvalidCode toast. -/
theorem claim_C2_totp_code_verify (store : Store) (uid : String) (row : TwoFactorRow)
    (key : List Nat) (token : String) (nowMs : Nat)
    (h1 : getTwoFA store uid = some row)
    (h2 : OTPAuth.base32Decode row.secret = some key) :
    (OTPAuth.validate key token (OTPAuth.totpCounter nowMs) ≠ none →
      Verify2FA.handleVerify store (some uid) token nowMs =
        Verify2FA.Result.authenticated) ∧
    (OTPAuth.validate key token (OTPAuth.totpCounter nowMs) = none →
      Verify2FA.handleVerify store (some uid) token nowMs =
        Verify2FA.Result.invalidCode) := by
  cases hv : OTPAuth.validate key token (OTPAuth.totpCounter nowMs) with
  | none =>
    refine ⟨fun hne => absurd rfl hne, fun _ => ?_⟩
    simp [Verify2FA.handleVerify, h1, h2, hv]
  | some d =>
    refine ⟨fun _ => ?_, fun heq => Option.noConfusion heq⟩
    simp [Verify2FA.handleVerify, h1, h2, hv]

/-- Witness for C2: submitting "000000" against a stored secret whose
window codes are 755224, 287082 and 359152 stays with InvalidCode. -/
theorem claim_C2_totp_code_verify_witness :
    Verify2FA.handleVerify ⟨[⟨"u1", "GEZDGNBVGY3TQOJQGEZDGNBVGY3TQOJQ", true⟩], []⟩
        (some "u1") "000000" 59000 = Verify2FA.Result.invalidCode :=
  (claim_C2_totp_code_verify ⟨[⟨"u1", "GEZDGNBVGY3TQOJQGEZDGNBVGY3TQOJQ", true⟩], []⟩
      "u1" ⟨"u1", "GEZDGNBVGY3TQOJQGEZDGNBVGY3TQOJQ", true⟩
      [49, 50, 51, 52, 53, 54, 55, 56, 57, 48, 49, 50, 51, 52, 53, 54, 55, 56, 57, 48]
      "000000" 59000 (by decide) (by decide)).2 (by decide)

/-- Claim C4: in the 2FA setup flow the generated secret is persisted
(with `enabled` set) if and only if the submitted confirmation code
validates against it: a mismatch writes nothing and stays at the
confirmation step, a match inserts `{user_id, secret, enabled := true}`
and completes, navigating to the dashboard. Stated for a first-time
setup, the account having no prior `user_2fa` row. -/
theorem claim_C4_setup_persist_iff (store : Store) (uid secret token : String)
    (key : List Nat) (nowMs : Nat)
    (hdec : OTPAuth.base32Decode secret = some key)
    (hfresh : store.user_2fa.any (fun r => r.user_id == uid) = false) :
    (OTPAuth.validate key token (OTPAuth.totpCounter nowMs) = none →
      Setup2FA.handleVerify store uid secret token nowMs =
        (Setup2FA.Result.invalidCode, store)) ∧
    (OTPAuth.validate key token (OTPAuth.totpCounter nowMs) ≠ none →
      Setup2FA.handleVerify store uid secret token nowMs =
        (Setup2FA.Result.complete,
          { store with user_2fa := store.user_2fa ++ [⟨uid, secret, true⟩] })) ∧
    ((∃ r ∈ (Setup2FA.handleVerify store uid secret token nowMs).2.user_2fa,
        r.user_id = uid ∧ r.secret = secret ∧ r.enabled = true) ↔
      OTPAuth.validate key token (OTPAuth.totpCounter nowMs) ≠ none) := by
  have hnotmem : ∀ r ∈ store.user_2fa, ¬r.user_id = uid := by
    intro r hr
    have := List.any_eq_false.mp hfresh r hr
    simpa using this
  cases hv : OTPAuth.validate key token (OTPAuth.totpCounter nowMs) with
  | none =>
    refine ⟨fun _ => ?_, fun hne => absurd rfl hne, ?_⟩
    · simp [Setup2FA.handleVerify, hdec, hv]
    · simp only [Setup2FA.handleVerify, hdec, hv]
      constructor
      · rintro ⟨r, hr, hu, _⟩
        exact absurd hu (hnotmem r hr)
      · intro hne
        exact absurd rfl hne
  | some d =>
    have hins : insertTwoFA store ⟨uid, secret, true⟩ = some
        { store with user_2fa := store.user_2fa ++ [⟨uid, secret, true⟩] } := by
      simp [insertTwoFA, hfresh]
    refine ⟨fun heq => Option.noConfusion heq, fun _ => ?_, ?_⟩
    · simp [Setup2FA.handleVerify, hdec, hv, hins]
    · simp only [Setup2FA.handleVerify, hdec, hv, hins]
      constructor
      · intro _
        exact Option.noConfusion
      · intro _
        exact ⟨⟨uid, secret, true⟩, by simp, rfl, rfl, rfl⟩

/-- Witness for C4: confirming the 59-second-mark code 287082 against the
base32 secret GEZDGNBVGY3TQOJQGEZDGNBVGY3TQOJQ on an empty store persists
the enabled secret and completes. -/
theorem claim_C4_setup_persist_iff_witness :
    Setup2FA.handleVerify ⟨[], []⟩ "u1" "GEZDGNBVGY3TQOJQGEZDGNBVGY3TQOJQ"
        "287082" 59000 =
      (Setup2FA.Result.complete,
        ⟨[⟨"u1", "GEZDGNBVGY3TQOJQGEZDGNBVGY3TQOJQ", true⟩], []⟩) :=
  (claim_C4_setup_persist_iff ⟨[], []⟩ "u1" "GEZDGNBVGY3TQOJQGEZDGNBVGY3TQOJQ"
      "287082"
      [49, 50, 51, 52, 53, 54, 55, 56, 57, 48, 49, 50, 51, 52, 53, 54, 55, 56, 57, 48]
      59000 (by decide) (by decide)).2.1 (by decide)

/-- Claim C6: every passkey registration builds creation options with a
32-byte (hence at least 16-byte) challenge drawn from the random stream,
requires user verification, restricts to platform authenticators and
accepts exactly the ES256 (-7) and RS256 (-257) algorithms; when the
ceremony yields a credential exposing a public key, the raw credential id
and public key are base64-encoded and inserted together with the
submitted device label. -/
theorem claim_C6_register_options_and_persist (uid email passkeyName : String)
    (rand : Nat → Nat) (ceremony : Settings.CreationOptions → Settings.CeremonyOutcome)
    (store : Store) (newRowId : String) (nowMs : Nat)
    (cred : Settings.CreatedCredential) (pk : List Nat)
    (hname : Settings.strTrim passkeyName ≠ "")
    (hcer : ceremony (Settings.mkCreationOptions email
        ((List.range 32).map (fun i => rand i % 256))) =
      Settings.CeremonyOutcome.ok cred)
    (hpk : cred.publicKey = some pk)
    (hfresh : store.user_passkeys.any
        (fun r => r.credential_id == base64Encode cred.rawId) = false) :
    ((Settings.mkCreationOptions email
        ((List.range 32).map (fun i => rand i % 256))).challenge.length = 32 ∧
      16 ≤ (Settings.mkCreationOptions email
        ((List.range 32).map (fun i => rand i % 256))).challenge.length ∧
      (Settings.mkCreationOptions email
        ((List.range 32).map (fun i => rand i % 256))).userVerification = "required" ∧
      (Settings.mkCreationOptions email
        ((List.range 32).map (fun i => rand i % 256))).authenticatorAttachment = "platform" ∧
      (Settings.mkCreationOptions email
        ((List.range 32).map (fun i => rand i % 256))).pubKeyCredParams = [-7, -257]) ∧
    Settings.addPasskey uid email passkeyName rand ceremony store newRowId nowMs =
      (Settings.AddResult.added,
        { store with user_passkeys := store.user_passkeys ++
            [⟨newRowId, uid, base64Encode cred.rawId, base64Encode pk, 0,
              passkeyName, nowMs, none⟩] }) := by
  refine ⟨⟨by simp [Settings.mkCreationOptions], by simp [Settings.mkCreationOptions],
    rfl, rfl, rfl⟩, ?_⟩
  have hins : insertPasskey store
      ⟨newRowId, uid, base64Encode cred.rawId, base64Encode pk, 0,
        passkeyName, nowMs, none⟩ = some
      { store with user_passkeys := store.user_passkeys ++
          [⟨newRowId, uid, base64Encode cred.rawId, base64Encode pk, 0,
            passkeyName, nowMs, none⟩] } := by
    simp [insertPasskey, hfresh]
  simp [Settings.addPasskey, hname, hcer, hpk, hins]

/-- Witness for C6: a ceremony returning raw id [1,2,3,4] and public key
[5,6] on an empty store persists the base64-encoded row AQIDBA== / BQY=
with the label phone. -/
theorem claim_C6_register_options_and_persist_witness :
    Settings.addPasskey "u1" "a@b.c" "phone" (fun i => i)
        (fun _ => Settings.CeremonyOutcome.ok ⟨[1, 2, 3, 4], some [5, 6]⟩)
        ⟨[], []⟩ "r1" 7 =
      (Settings.AddResult.added,
        ⟨[], [⟨"r1", "u1", base64Encode [1, 2, 3, 4], base64Encode [5, 6], 0,
          "phone", 7, none⟩]⟩) :=
  (claim_C6_register_options_and_persist "u1" "a@b.c" "phone" (fun i => i)
      (fun _ => Settings.CeremonyOutcome.ok ⟨[1, 2, 3, 4], some [5, 6]⟩)
      ⟨[], []⟩ "r1" 7 ⟨[1, 2, 3, 4], some [5, 6]⟩ [5, 6]
      (by decide) rfl rfl (by decide)).2

/-- Characterization of validate on a six-character token when a previous
period exists: the no-match sentinel comes back exactly when the token
differs from all three checked codes. -/
theorem validate_eq_none_iff (key : List Nat) (token : String) (T : Nat)
    (hT : 1 ≤ T) (hlen : token.length = 6) :
    OTPAuth.validate key token T = none ↔
      token ≠ OTPAuth.hotpToken key (T - 1) ∧ token ≠ OTPAuth.hotpToken key T ∧
        token ≠ OTPAuth.hotpToken key (T + 1) := by
  unfold OTPAuth.validate
  by_cases h1 : token = OTPAuth.hotpToken key (T - 1) <;>
    by_cases h2 : token = OTPAuth.hotpToken key T <;>
      by_cases h3 : token = OTPAuth.hotpToken key (T + 1) <;>
        simp_all [hotpToken_length]

/-- Claim C3 (amended): validating `totp(secret, time)` with window 1
always matches when `time` falls in the current or an adjacent period of
the validation instant, and when it falls outside that window it fails
exactly unless the outside period's six-digit code coincides with one of
the three in-window codes; validate checks exactly the current and ±1
periods, answering the first matching offset or the no-match sentinel. -/
theorem claim_C3_totp_window (key : List Nat) (c T : Nat) (hT : 1 ≤ T) :
    ((c = T - 1 ∨ c = T ∨ c = T + 1) →
      OTPAuth.validate key (OTPAuth.hotpToken key c) T ≠ none) ∧
    (OTPAuth.validate key (OTPAuth.hotpToken key c) T = none ↔
      OTPAuth.hotpToken key c ≠ OTPAuth.hotpToken key (T - 1) ∧
      OTPAuth.hotpToken key c ≠ OTPAuth.hotpToken key T ∧
      OTPAuth.hotpToken key c ≠ OTPAuth.hotpToken key (T + 1)) := by
  have hiff := validate_eq_none_iff key (OTPAuth.hotpToken key c) T hT
    (hotpToken_length key c)
  refine ⟨?_, hiff⟩
  intro hc hnone
  rcases hiff.mp hnone with ⟨n1, n2, n3⟩
  rcases hc with h | h | h <;> subst h
  · exact n1 rfl
  · exact n2 rfl
  · exact n3 rfl

/-- Witness for the amended C3: an in-window code (generated at the very
validation counter) is accepted. -/
theorem claim_C3_totp_window_witness :
    OTPAuth.validate [1, 2, 3, 4, 5, 6, 7, 8, 9, 10, 11, 12, 13, 14, 15, 16, 17, 18, 19, 20]
        (OTPAuth.hotpToken
          [1, 2, 3, 4, 5, 6, 7, 8, 9, 10, 11, 12, 13, 14, 15, 16, 17, 18, 19, 20] 83)
        83 ≠ none :=
  (claim_C3_totp_window
      [1, 2, 3, 4, 5, 6, 7, 8, 9, 10, 11, 12, 13, 14, 15, 16, 17, 18, 19, 20] 83 83
      (by decide)).1 (Or.inr (Or.inl rfl))

/-- Counterexample to C3 as stated: with the 20-byte key 0x01..0x14 the
code generated for the period of time 44370000 ms (counter 1479) also
matches when validated at the instant 2490000 ms (counter 83), 1396
periods away, because the two periods' six-digit codes collide — so
validation does not always fail outside the ±1 window. -/
theorem claim_C3_far_period_accepted :
    OTPAuth.validate [1, 2, 3, 4, 5, 6, 7, 8, 9, 10, 11, 12, 13, 14, 15, 16, 17, 18, 19, 20]
        (OTPAuth.hotpToken
          [1, 2, 3, 4, 5, 6, 7, 8, 9, 10, 11, 12, 13, 14, 15, 16, 17, 18, 19, 20]
          (OTPAuth.totpCounter 44370000))
        (OTPAuth.totpCounter 2490000) = some 0 ∧
      OTPAuth.totpCounter 2490000 + 1 < OTPAuth.totpCounter 44370000 := by decide

/-- Claim C7 (amended): a code generated from another secret is accepted
exactly when it coincides with one of the three six-digit codes the
stored secret yields in the checked window — a coincidence distinct
secrets can produce. -/
theorem claim_C7_cross_secret_match_iff (k1 k2 : List Nat) (c T : Nat) (hT : 1 ≤ T) :
    OTPAuth.validate k1 (OTPAuth.hotpToken k2 c) T ≠ none ↔
      OTPAuth.hotpToken k2 c = OTPAuth.hotpToken k1 (T - 1) ∨
      OTPAuth.hotpToken k2 c = OTPAuth.hotpToken k1 T ∨
      OTPAuth.hotpToken k2 c = OTPAuth.hotpToken k1 (T + 1) := by
  have hiff := validate_eq_none_iff k1 (OTPAuth.hotpToken k2 c) T hT
    (hotpToken_length k2 c)
  constructor
  · intro hne
    by_contra hor
    push_neg at hor
    exact hne (hiff.mpr ⟨hor.1, hor.2.1, hor.2.2⟩)
  · intro hor hnone
    rcases hiff.mp hnone with ⟨n1, n2, n3⟩
    rcases hor with h | h | h
    · exact n1 h
    · exact n2 h
    · exact n3 h

/-- Witness for the amended C7: the concrete cross-secret collision below
is accepted, the foreign code equalling the stored secret's current code. -/
theorem claim_C7_cross_secret_match_iff_witness :
    OTPAuth.validate [114, 163, 76, 174, 225, 220, 89, 93, 87, 242]
        (OTPAuth.hotpToken [151, 158, 226, 153, 197, 23, 248, 172, 96, 169] 1000)
        1000 ≠ none :=
  (claim_C7_cross_secret_match_iff [114, 163, 76, 174, 225, 220, 89, 93, 87, 242]
      [151, 158, 226, 153, 197, 23, 248, 172, 96, 169] 1000 1000
      (by decide)).mpr (Or.inr (Or.inl (by decide)))

/-- Counterexample to C7 as stated: the two distinct 10-byte secrets below
produce the same six-digit code at counter 1000, so validate accepts under
the first secret a code generated from the second. -/
theorem claim_C7_foreign_code_accepted :
    ([114, 163, 76, 174, 225, 220, 89, 93, 87, 242] : List Nat) ≠
        [151, 158, 226, 153, 197, 23, 248, 172, 96, 169] ∧
      OTPAuth.validate [114, 163, 76, 174, 225, 220, 89, 93, 87, 242]
        (OTPAuth.hotpToken [151, 158, 226, 153, 197, 23, 248, 172, 96, 169] 1000)
        1000 = some 0 := by decide
